import Mathlib

/-!
Shallow embedding of the `arc-ai` command-line tool
(`internal/cmd/root.go`), a Go program that drafts commit messages and
answers ad-hoc questions by shelling out to external AI CLIs.

Go strings and byte slices are modelled by their BYTE sequences: a
Lean `String` here carries one `Char` per byte (values 0-255), so
`String.length`, `String.take` and `++` coincide with Go's `len`,
byte slicing and concatenation, and arbitrary (even non-UTF-8)
subprocess output is representable.  Every string literal in this file
is ASCII, where a literal's characters are exactly its own bytes; a
multi-byte character of the input appears explicitly as its bytes.
Subprocess results are modelled as `Except String String` values carried
in an environment record, and every externally visible action (running
`git`, probing the path, spawning a provider, reading stdin, printing)
is recorded in a trace of `Effect`s.  The two command handlers
(`newCommitCmd`'s `RunE` and `newAskCmd`'s `RunE`) become the pure
functions `commitRun` and `askRun` from an environment to a
result-and-trace pair; a `RunE` returning `nil` (modelled `Except.ok ()`)
makes the process exit with status zero under the command framework.
-/

deriving instance DecidableEq for Except

namespace ArcAI

/-- Byte predicate of Go's `unicode.IsSpace` on the Latin-1 range
(tab, newline, vertical tab, form feed, carriage return, space, next
line, no-break space).  Go decodes UTF-8 runes before testing; this
byte-wise version agrees with it on ASCII input, which covers the
compared literals and the interactive responses of this program. -/
def goIsSpace (c : Char) : Bool :=
  c = '\t' || c = '\n' || c = Char.ofNat 0x0B || c = Char.ofNat 0x0C ||
  c = '\r' || c = ' ' || c = Char.ofNat 0x85 || c = Char.ofNat 0xA0

/-- Go's `strings.TrimSpace` (byte-wise, exact on ASCII input): remove
leading and trailing whitespace. -/
def goTrimSpace (s : String) : String :=
  String.mk (((s.data.dropWhile goIsSpace).reverse.dropWhile goIsSpace).reverse)

/-- ASCII case folding of one byte, the fragment of Go's lowercase
mapping exercised by this program (interactive responses are ASCII). -/
def goLowerChar (c : Char) : Char :=
  if 'A' ≤ c && c ≤ 'Z' then Char.ofNat (c.toNat + 32) else c

/-- Go's `strings.ToLower` on the ASCII fragment, byte-wise. -/
def goToLower (s : String) : String :=
  String.mk (s.data.map goLowerChar)

/-- Externally visible actions of one command invocation, in order. -/
inductive Effect where
  /-- Probe the execution path for an executable (`exec.LookPath`). -/
  | lookPath (name : String)
  /-- Spawn a provider subprocess with the given argument list. -/
  | spawn (prog : String) (args : List String)
  /-- Run `git diff --cached` (root.go line 52). -/
  | gitDiff
  /-- Read the confirmation line, or the question lines, from stdin. -/
  | readStdin
  /-- Run `git commit -m msg` (root.go line 106). -/
  | gitCommit (msg : String)
  /-- Write a string to standard output. -/
  | printOut (s : String)
  /-- Render the ask result as JSON with fields question and response. -/
  | printJSON (question response : String)
deriving DecidableEq, Repr

/-- Environment for the provider dispatcher `askAI`: which executables
the path probe finds, and what each provider subprocess would return
(`Except.ok` its captured stdout, `Except.error` the text of the
execution error or non-zero exit). -/
structure ProviderEnv where
  claudeOnPath : Bool
  codexOnPath : Bool
  claudeRun : Except String String
  codexRun : Except String String
deriving DecidableEq, Repr

/-- Argument list built by `askClaude` (root.go lines 201-205). -/
def claudeArgs (prompt model : String) : List String :=
  ["--print"] ++ (if model ≠ "" then ["--model", model] else []) ++ [prompt]

/-- Argument list built by `askCodex` (root.go lines 217-221). -/
def codexArgs (prompt model : String) : List String :=
  ["ask"] ++ (if model ≠ "" then ["--model", model] else []) ++ [prompt]

/-- Model of `askClaude` (root.go lines 200-214): run the claude CLI, trim its
output; on failure surface a claude-specific error. -/
def askClaude (env : ProviderEnv) (prompt model : String) :
    Except String String × List Effect :=
  match env.claudeRun with
  | Except.ok out => (Except.ok (goTrimSpace out), [Effect.spawn "claude" (claudeArgs prompt model)])
  | Except.error e => (Except.error ("claude failed: " ++ e), [Effect.spawn "claude" (claudeArgs prompt model)])

/-- Model of `askCodex` (root.go lines 216-230): run the codex CLI, trim its
output; on failure surface a codex-specific error. -/
def askCodex (env : ProviderEnv) (prompt model : String) :
    Except String String × List Effect :=
  match env.codexRun with
  | Except.ok out => (Except.ok (goTrimSpace out), [Effect.spawn "codex" (codexArgs prompt model)])
  | Except.error e => (Except.error ("codex failed: " ++ e), [Effect.spawn "codex" (codexArgs prompt model)])

/-- Model of `askAI` (root.go lines 186-198): probe for claude first, then codex;
delegate to the first executable found, else fail naming both tools. -/
def askAI (env : ProviderEnv) (prompt model : String) :
    Except String String × List Effect :=
  if env.claudeOnPath then
    let r := askClaude env prompt model
    (r.1, Effect.lookPath "claude" :: r.2)
  else if env.codexOnPath then
    let r := askCodex env prompt model
    (r.1, Effect.lookPath "claude" :: Effect.lookPath "codex" :: r.2)
  else
    (Except.error "no AI provider available (install claude or codex CLI)",
     [Effect.lookPath "claude", Effect.lookPath "codex"])

/-- Marker appended to a truncated diff (root.go line 64). -/
def truncationMarker : String := "\n... (truncated)"

/-- Diff truncation (root.go lines 62-65).  Go's `len(diff)` at line 63
and the slice `diff[:10000]` at line 64 count BYTES; strings model byte
sequences here, so `String.length` and `String.take` are exactly that
byte count and byte slice. -/
def promptInput (diff : String) : String :=
  if diff.length > 10000 then diff.take 10000 ++ truncationMarker else diff

/-- Instruction template of the commit flow (root.go lines 68-76). -/
def commitPromptTemplate (diff : String) : String :=
  "Generate a concise git commit message for the following diff.\nUse conventional commit format (feat:, fix:, docs:, refactor:, etc.).\nKeep the message under 72 characters for the subject line.\nInclude a brief body if needed.\n\nDiff:\n"
    ++ diff ++ "\n\nRespond with ONLY the commit message, no explanations."

/-- Environment for one `commit` invocation: the result of
`git diff --cached` (`Except.error` when `Output()` reports an execution
error or non-zero exit, `Except.ok` its captured stdout bytes
otherwise), the
provider environment, the line `reader.ReadString` yields from stdin,
whether that read ended in an error (root.go line 97 discards it), and
the result of `git commit`. -/
structure CommitEnv where
  provider : ProviderEnv
  diffRun : Except String String
  stdinLine : String
  stdinErr : Bool
  commitRes : Except String Unit
deriving DecidableEq, Repr

/-- Confirmation stage of the commit flow (root.go lines 87-114), after
the AI message has been generated and trimmed: dry-run prints and stops;
otherwise the message is shown, a line is read from stdin, and the
trimmed lowercased response decides between committing and cancelling. -/
def confirmStage (dryRun : Bool) (stdinLine : String) (commitRes : Except String Unit)
    (message : String) : Except String Unit × List Effect :=
  if dryRun then
    (Except.ok (), [Effect.printOut ("\nSuggested commit message:\n" ++ message ++ "\n")])
  else
    let pre := [Effect.printOut ("\nSuggested commit message:\n" ++ message ++ "\n\n"),
                Effect.printOut "Use this message? [Y/n]: ", Effect.readStdin]
    let response := goTrimSpace (goToLower stdinLine)
    if response ≠ "" ∧ response ≠ "y" ∧ response ≠ "yes" then
      (Except.ok (), pre ++ [Effect.printOut "Commit cancelled."])
    else
      match commitRes with
      | Except.ok _ => (Except.ok (), pre ++ [Effect.gitCommit message])
      | Except.error e => (Except.error ("git commit failed: " ++ e), pre ++ [Effect.gitCommit message])

/-- Model of the commit command handler (root.go lines 45-115): collect the
staged diff, fail on diff error or empty diff, truncate, build the
prompt, dispatch to a provider, then confirm and commit. -/
def commitRun (model : String) (dryRun : Bool) (env : CommitEnv) :
    Except String Unit × List Effect :=
  match env.diffRun with
  | Except.error e => (Except.error ("git diff failed: " ++ e), [Effect.gitDiff])
  | Except.ok diffOutput =>
    if diffOutput.length = 0 then
      (Except.error "no staged changes", [Effect.gitDiff])
    else
      let prompt := commitPromptTemplate (promptInput diffOutput)
      let ai := askAI env.provider prompt model
      let effs := Effect.gitDiff :: Effect.printOut "Generating commit message..." :: ai.2
      match ai.1 with
      | Except.error e => (Except.error ("AI request failed: " ++ e), effs)
      | Except.ok raw =>
        let r := confirmStage dryRun env.stdinLine env.commitRes (goTrimSpace raw)
        (r.1, effs ++ r.2)

/-- Environment for one `ask` invocation: whether the out-of-scope
output-option helper resolves (modelled opaquely), the provider
environment, the lines the stdin scanner yields, and whether the JSON
rendering was selected. -/
structure AskEnv where
  provider : ProviderEnv
  resolveOk : Bool
  stdinLines : List String
  outputJSON : Bool
deriving DecidableEq, Repr

/-- Question derivation of the ask command (root.go lines 144-155):
positional arguments joined by single spaces when present, otherwise all
stdin lines joined by newlines. -/
def deriveQuestion (args : List String) (stdinLines : List String) : String :=
  if args.length > 0 then String.intercalate " " args
  else String.intercalate "\n" stdinLines

/-- Model of the ask command handler (root.go lines 134-175): resolve output
options, derive the question, reject an empty or whitespace-only
question, dispatch the question verbatim, render the response. -/
def askRun (model : String) (args : List String) (env : AskEnv) :
    Except String Unit × List Effect :=
  if env.resolveOk = false then (Except.error "output resolve failed", [])
  else
    let question := deriveQuestion args env.stdinLines
    let pre : List Effect := if args.length > 0 then [] else [Effect.readStdin]
    if goTrimSpace question = "" then (Except.error "no question provided", pre)
    else
      let ai := askAI env.provider question model
      match ai.1 with
      | Except.error e => (Except.error e, pre ++ ai.2)
      | Except.ok response =>
        if env.outputJSON then
          (Except.ok (), pre ++ ai.2 ++ [Effect.printJSON question response])
        else
          (Except.ok (), pre ++ ai.2 ++ [Effect.printOut response])

/-- Modelled from the spec: the spec states the truncation bound in
CHARACTERS, a quantity root.go never computes.  Character (rune) count
of a Go string represented by its bytes: the number of UTF-8 sequences,
i.e. of bytes that are not continuation bytes (0x80-0xBF).  This
definition exists only to compare the spec's character reading with the
code's byte count. -/
def runeCount (s : String) : Nat :=
  (s.data.filter fun c => decide (c.toNat < 0x80) || decide (0xC0 ≤ c.toNat)).length

/-- Byte sequence of n copies of the two-byte UTF-8 encoding of the
character U+00E9 (bytes 0xC3 0xA9). -/
def twoByteRun : Nat → List Char
  | 0 => []
  | n + 1 => Char.ofNat 0xC3 :: Char.ofNat 0xA9 :: twoByteRun n

/-! Helper lemmas -/

theorem twoByteRun_length (n : Nat) : (twoByteRun n).length = 2 * n := by
  induction n with
  | zero => rfl
  | succ k ih => simp [twoByteRun, ih]; omega

theorem runeCount_twoByteRun (n : Nat) : runeCount (String.mk (twoByteRun n)) = n := by
  induction n with
  | zero => rfl
  | succ k ih =>
    have h1 : (decide ((Char.ofNat 0xC3).toNat < 0x80) ||
        decide (0xC0 ≤ (Char.ofNat 0xC3).toNat)) = true := by decide
    have h2 : (decide ((Char.ofNat 0xA9).toNat < 0x80) ||
        decide (0xC0 ≤ (Char.ofNat 0xA9).toNat)) = false := by decide
    simp only [runeCount] at ih ⊢
    rw [twoByteRun, List.filter_cons, List.filter_cons, h1, h2]
    simp [ih]

theorem string_length_zero (s : String) : s.length = 0 ↔ s = "" := by
  cases s
  simp [String.length, String.ext_iff, List.length_eq_zero]

theorem askClaude_trace (env : ProviderEnv) (p m : String) :
    (askClaude env p m).2 = [Effect.spawn "claude" (claudeArgs p m)] := by
  unfold askClaude; cases env.claudeRun <;> rfl

theorem askCodex_trace (env : ProviderEnv) (p m : String) :
    (askCodex env p m).2 = [Effect.spawn "codex" (codexArgs p m)] := by
  unfold askCodex; cases env.codexRun <;> rfl

theorem askAI_trace (env : ProviderEnv) (p m : String) :
    (askAI env p m).2 = [Effect.lookPath "claude", Effect.spawn "claude" (claudeArgs p m)] ∨
    (askAI env p m).2 =
      [Effect.lookPath "claude", Effect.lookPath "codex", Effect.spawn "codex" (codexArgs p m)] ∨
    (askAI env p m).2 = [Effect.lookPath "claude", Effect.lookPath "codex"] := by
  cases h1 : env.claudeOnPath
  · cases h2 : env.codexOnPath
    · exact Or.inr (Or.inr (by simp [askAI, h1, h2]))
    · exact Or.inr (Or.inl (by simp [askAI, h1, h2, askCodex_trace]))
  · exact Or.inl (by simp [askAI, h1, askClaude_trace])

theorem askAI_not_gitCommit (env : ProviderEnv) (p m msg : String) :
    Effect.gitCommit msg ∉ (askAI env p m).2 := by
  rcases askAI_trace env p m with h | h | h <;> rw [h] <;> simp

theorem askAI_not_readStdin (env : ProviderEnv) (p m : String) :
    Effect.readStdin ∉ (askAI env p m).2 := by
  rcases askAI_trace env p m with h | h | h <;> rw [h] <;> simp

theorem askAI_claude_mem (env : ProviderEnv) (p m : String) (h : env.claudeOnPath = true) :
    Effect.spawn "claude" (claudeArgs p m) ∈ (askAI env p m).2 := by
  simp [askAI, h, askClaude_trace]

theorem commitRun_ok (model : String) (dryRun : Bool) (env : CommitEnv) (d : String)
    (hd : env.diffRun = Except.ok d) (hne : d ≠ "") :
    commitRun model dryRun env =
      match (askAI env.provider (commitPromptTemplate (promptInput d)) model).1 with
      | Except.error e =>
          (Except.error ("AI request failed: " ++ e),
           Effect.gitDiff :: Effect.printOut "Generating commit message..." ::
             (askAI env.provider (commitPromptTemplate (promptInput d)) model).2)
      | Except.ok raw =>
          ((confirmStage dryRun env.stdinLine env.commitRes (goTrimSpace raw)).1,
           Effect.gitDiff :: Effect.printOut "Generating commit message..." ::
             (askAI env.provider (commitPromptTemplate (promptInput d)) model).2 ++
             (confirmStage dryRun env.stdinLine env.commitRes (goTrimSpace raw)).2) := by
  have h0 : ¬ d.length = 0 := by rw [string_length_zero]; exact hne
  unfold commitRun
  rw [hd]
  simp only [if_neg h0]

theorem commitRun_confirm (model : String) (dryRun : Bool) (env : CommitEnv) (d raw : String)
    (hd : env.diffRun = Except.ok d) (hne : d ≠ "")
    (hai : (askAI env.provider (commitPromptTemplate (promptInput d)) model).1 = Except.ok raw) :
    commitRun model dryRun env =
      ((confirmStage dryRun env.stdinLine env.commitRes (goTrimSpace raw)).1,
       Effect.gitDiff :: Effect.printOut "Generating commit message..." ::
         (askAI env.provider (commitPromptTemplate (promptInput d)) model).2 ++
         (confirmStage dryRun env.stdinLine env.commitRes (goTrimSpace raw)).2) := by
  rw [commitRun_ok model dryRun env d hd hne, hai]

theorem commitRun_trace_cases (model : String) (dryRun : Bool) (env : CommitEnv) :
    (commitRun model dryRun env).2 = [Effect.gitDiff] ∨
    ∃ d, env.diffRun = Except.ok d ∧ d ≠ "" ∧
      ((∃ e, (askAI env.provider (commitPromptTemplate (promptInput d)) model).1 = Except.error e ∧
          (commitRun model dryRun env).2 =
            Effect.gitDiff :: Effect.printOut "Generating commit message..." ::
              (askAI env.provider (commitPromptTemplate (promptInput d)) model).2) ∨
       (∃ raw, (askAI env.provider (commitPromptTemplate (promptInput d)) model).1 = Except.ok raw ∧
          (commitRun model dryRun env).2 =
            Effect.gitDiff :: Effect.printOut "Generating commit message..." ::
              (askAI env.provider (commitPromptTemplate (promptInput d)) model).2 ++
              (confirmStage dryRun env.stdinLine env.commitRes (goTrimSpace raw)).2)) := by
  cases hd : env.diffRun with
  | error e => left; unfold commitRun; rw [hd]
  | ok d =>
    by_cases h0 : d = ""
    · subst h0; left; unfold commitRun; rw [hd]; rfl
    · right
      refine ⟨d, rfl, h0, ?_⟩
      cases hai : (askAI env.provider (commitPromptTemplate (promptInput d)) model).1 with
      | error e =>
        exact Or.inl ⟨e, rfl, by rw [commitRun_ok model dryRun env d hd h0, hai]⟩
      | ok raw =>
        exact Or.inr ⟨raw, rfl, by rw [commitRun_confirm model dryRun env d raw hd h0 hai]⟩

theorem confirmStage_dry (line : String) (cr : Except String Unit) (msg : String) :
    confirmStage true line cr msg =
      (Except.ok (), [Effect.printOut ("\nSuggested commit message:\n" ++ msg ++ "\n")]) := rfl

theorem confirmStage_cancel (line : String) (cr : Except String Unit) (msg : String)
    (h : goTrimSpace (goToLower line) ≠ "" ∧ goTrimSpace (goToLower line) ≠ "y" ∧
         goTrimSpace (goToLower line) ≠ "yes") :
    confirmStage false line cr msg =
      (Except.ok (),
       [Effect.printOut ("\nSuggested commit message:\n" ++ msg ++ "\n\n"),
        Effect.printOut "Use this message? [Y/n]: ", Effect.readStdin,
        Effect.printOut "Commit cancelled."]) := by
  simp [confirmStage, h.1, h.2.1, h.2.2]

theorem confirmStage_accept_trace (line : String) (cr : Except String Unit) (msg : String)
    (h : goTrimSpace (goToLower line) = "" ∨ goTrimSpace (goToLower line) = "y" ∨
         goTrimSpace (goToLower line) = "yes") :
    (confirmStage false line cr msg).2 =
      [Effect.printOut ("\nSuggested commit message:\n" ++ msg ++ "\n\n"),
       Effect.printOut "Use this message? [Y/n]: ", Effect.readStdin, Effect.gitCommit msg] := by
  have hc : ¬(goTrimSpace (goToLower line) ≠ "" ∧ goTrimSpace (goToLower line) ≠ "y" ∧
      goTrimSpace (goToLower line) ≠ "yes") := by tauto
  unfold confirmStage
  rw [if_neg Bool.false_ne_true, if_neg hc]
  cases cr <;> rfl

/-! Claim theorems -/

/-- C1 counterexample: a staged diff of 5001 two-byte characters has
5001 characters, at most 10000, so the claim requires it to reach the
prompt builder unchanged; but root.go line 63 measures `len(diff)` in
bytes, finds 10002 > 10000, and truncates (the result does not even
have the diff's byte length). -/
theorem diff_truncation_counterexample :
    runeCount (String.mk (twoByteRun 5001)) = 5001 ∧
    runeCount (String.mk (twoByteRun 5001)) ≤ 10000 ∧
    (String.mk (twoByteRun 5001)).length = 10002 ∧
    promptInput (String.mk (twoByteRun 5001)) ≠ String.mk (twoByteRun 5001) := by
  have hrc := runeCount_twoByteRun 5001
  have hlen : (String.mk (twoByteRun 5001)).length = 10002 := by
    show (twoByteRun 5001).length = 10002
    rw [twoByteRun_length]
  refine ⟨hrc, by omega, hlen, ?_⟩
  intro hEq
  have hL := congrArg String.length hEq
  have hgt : (String.mk (twoByteRun 5001)).length > 10000 := by omega
  have htk : ((String.mk (twoByteRun 5001)).take 10000).length = 10000 := by
    rw [String.take_eq]
    show ((twoByteRun 5001).take 10000).length = 10000
    rw [List.length_take, twoByteRun_length]
    omega
  have hm : truncationMarker.length = 16 := rfl
  simp only [promptInput] at hL
  rw [if_pos hgt, String.length_append, htk, hm, hlen] at hL
  omega

/-- C1 amended: a staged diff longer than 10000 BYTES reaches the
prompt builder as exactly its first 10000 bytes followed by the fixed
truncation marker, and a diff of at most 10000 bytes reaches it
unchanged (strings model byte sequences here, so `length` and `take`
are Go's `len` and byte slicing); in the commit flow the provider
subprocess receives the template wrapped around exactly this input. -/
theorem diff_truncation (d : String) :
    (d.length > 10000 → promptInput d = d.take 10000 ++ truncationMarker) ∧
    (d.length ≤ 10000 → promptInput d = d) ∧
    (∀ model dryRun env, env.diffRun = Except.ok d → d ≠ "" →
      env.provider.claudeOnPath = true →
      Effect.spawn "claude" (claudeArgs (commitPromptTemplate (promptInput d)) model) ∈
        (commitRun model dryRun env).2) := by
  refine ⟨?_, ?_, ?_⟩
  · intro h
    rw [promptInput, if_pos h]
  · intro h
    rw [promptInput, if_neg (by omega)]
  · intro model dryRun env hd hne hcl
    have hmem := askAI_claude_mem env.provider (commitPromptTemplate (promptInput d)) model hcl
    rw [commitRun_ok model dryRun env d hd hne]
    cases hai : (askAI env.provider (commitPromptTemplate (promptInput d)) model).1 <;>
      simp [hai, hmem]

theorem diff_truncation_witness :
    (String.mk (List.replicate 10001 'a')).length > 10000 ∧
    promptInput (String.mk (List.replicate 10001 'a')) =
      (String.mk (List.replicate 10001 'a')).take 10000 ++ truncationMarker := by
  have h : (String.mk (List.replicate 10001 'a')).length > 10000 := by
    show (List.replicate 10001 'a').length > 10000
    rw [List.length_replicate]
    omega
  exact ⟨h, (diff_truncation _).1 h⟩

/-- C3: the dispatcher probes claude first (the first probe of every
trace); when claude is on the path its result is the dispatch result and
codex is neither probed nor spawned, even when codex is also present;
codex is consulted only when claude is absent, and then claude is never
spawned. -/
theorem provider_priority (env : ProviderEnv) (p m : String) :
    (askAI env p m).2.head? = some (Effect.lookPath "claude") ∧
    (env.claudeOnPath = true →
      (askAI env p m).1 = (askClaude env p m).1 ∧
      Effect.spawn "claude" (claudeArgs p m) ∈ (askAI env p m).2 ∧
      (∀ a, Effect.spawn "codex" a ∉ (askAI env p m).2) ∧
      Effect.lookPath "codex" ∉ (askAI env p m).2) ∧
    (env.claudeOnPath = false → env.codexOnPath = true →
      (askAI env p m).1 = (askCodex env p m).1 ∧
      Effect.spawn "codex" (codexArgs p m) ∈ (askAI env p m).2 ∧
      (∀ a, Effect.spawn "claude" a ∉ (askAI env p m).2)) := by
  cases h1 : env.claudeOnPath <;> cases h2 : env.codexOnPath <;>
    simp [askAI, h1, h2, askClaude_trace, askCodex_trace]

theorem provider_priority_witness :
    (askAI ⟨true, true, Except.ok "A", Except.ok "B"⟩ "q" "").1 =
      (askClaude ⟨true, true, Except.ok "A", Except.ok "B"⟩ "q" "").1 ∧
    ∀ a, Effect.spawn "codex" a ∉ (askAI ⟨true, true, Except.ok "A", Except.ok "B"⟩ "q" "").2 := by
  have h := (provider_priority ⟨true, true, Except.ok "A", Except.ok "B"⟩ "q" "").2.1 rfl
  exact ⟨h.1, h.2.2.1⟩

/-- C4: with neither executable on the path, dispatch fails with the
provider-unavailable error naming both tools, and the trace holds the
two path probes but no spawned subprocess. -/
theorem provider_unavailable (env : ProviderEnv) (p m : String)
    (h1 : env.claudeOnPath = false) (h2 : env.codexOnPath = false) :
    (askAI env p m).1 = Except.error "no AI provider available (install claude or codex CLI)" ∧
    (askAI env p m).2 = [Effect.lookPath "claude", Effect.lookPath "codex"] ∧
    ∀ q a, Effect.spawn q a ∉ (askAI env p m).2 := by
  simp [askAI, h1, h2]

theorem provider_unavailable_witness :
    (askAI ⟨false, false, Except.ok "", Except.ok ""⟩ "q" "m").1 =
      Except.error "no AI provider available (install claude or codex CLI)" :=
  (provider_unavailable ⟨false, false, Except.ok "", Except.ok ""⟩ "q" "m" rfl rfl).1

/-- C2 counterexample: when the staged-diff subprocess exits non-zero
the commit command fails with the git-diff-failed condition, not the
no-staged-changes condition the claim requires for that case. -/
theorem commit_diff_error_counterexample :
    (commitRun "" false
        ⟨⟨false, false, Except.ok "", Except.ok ""⟩, Except.error "exit status 1", "", false,
          Except.ok ()⟩).1 = Except.error "git diff failed: exit status 1" ∧
    "git diff failed: exit status 1" ≠ "no staged changes" :=
  ⟨by decide, by decide⟩

/-- C2 amended: a non-zero exit of the staged-diff subprocess fails the
command with the git-diff-failed condition, and empty captured output
fails it with the no-staged-changes condition; in both cases the trace
is only the diff invocation, so no provider is probed or called. -/
theorem commit_diff_failure (model : String) (dryRun : Bool) (env : CommitEnv) :
    (∀ e, env.diffRun = Except.error e →
      commitRun model dryRun env =
        (Except.error ("git diff failed: " ++ e), [Effect.gitDiff])) ∧
    (env.diffRun = Except.ok "" →
      commitRun model dryRun env = (Except.error "no staged changes", [Effect.gitDiff])) := by
  constructor
  · intro e he; unfold commitRun; rw [he]
  · intro he; unfold commitRun; rw [he]; rfl

theorem commit_diff_failure_witness :
    commitRun "" false
        ⟨⟨false, false, Except.ok "", Except.ok ""⟩, Except.ok "", "", false, Except.ok ()⟩ =
      (Except.error "no staged changes", [Effect.gitDiff]) :=
  (commit_diff_failure "" false
    ⟨⟨false, false, Except.ok "", Except.ok ""⟩, Except.ok "", "", false, Except.ok ()⟩).2 rfl

/-- C5 counterexample: the stdin response read on a commit confirmation
can be a string such as "Y \n" that is not empty, "y", or "yes" after
case folding alone — the claim then requires cancellation — yet the code
also trims whitespace, accepts it, and invokes the commit. -/
theorem confirm_casefold_counterexample :
    goToLower "Y \n" ≠ "" ∧ goToLower "Y \n" ≠ "y" ∧ goToLower "Y \n" ≠ "yes" ∧
    Effect.gitCommit "msg" ∈
      (commitRun "" false
        ⟨⟨true, false, Except.ok "msg", Except.ok ""⟩, Except.ok "d", "Y \n", false,
          Except.ok ()⟩).2 :=
  ⟨by decide, by decide, by decide, by decide⟩

/-- C5 amended: in the interactive commit flow a stdin response that is
empty, "y", or "yes" after case folding and leading/trailing-whitespace
trimming (the read line keeps its newline terminator, which the
trimming removes) transitions to Confirmed and invokes the commit with
the generated (trimmed) message; any other response transitions to
Cancelled and invokes no commit. -/
theorem confirm_decision (model : String) (env : CommitEnv) (d raw : String)
    (hd : env.diffRun = Except.ok d) (hne : d ≠ "")
    (hai : (askAI env.provider (commitPromptTemplate (promptInput d)) model).1 = Except.ok raw) :
    (goTrimSpace (goToLower env.stdinLine) = "" ∨ goTrimSpace (goToLower env.stdinLine) = "y" ∨
        goTrimSpace (goToLower env.stdinLine) = "yes" →
      Effect.gitCommit (goTrimSpace raw) ∈ (commitRun model false env).2) ∧
    (goTrimSpace (goToLower env.stdinLine) ≠ "" ∧ goTrimSpace (goToLower env.stdinLine) ≠ "y" ∧
        goTrimSpace (goToLower env.stdinLine) ≠ "yes" →
      (commitRun model false env).1 = Except.ok () ∧
      ∀ m, Effect.gitCommit m ∉ (commitRun model false env).2) := by
  rw [commitRun_confirm model false env d raw hd hne hai]
  constructor
  · intro h
    rw [confirmStage_accept_trace env.stdinLine env.commitRes (goTrimSpace raw) h]
    simp
  · intro h
    rw [confirmStage_cancel env.stdinLine env.commitRes (goTrimSpace raw) h]
    refine ⟨rfl, ?_⟩
    intro m
    simp [askAI_not_gitCommit]

theorem confirm_decision_witness :
    Effect.gitCommit (goTrimSpace "msg") ∈
      (commitRun "" false
        ⟨⟨true, false, Except.ok "msg", Except.ok ""⟩, Except.ok "d", "yes\n", false,
          Except.ok ()⟩).2 :=
  (confirm_decision ""
      ⟨⟨true, false, Except.ok "msg", Except.ok ""⟩, Except.ok "d", "yes\n", false, Except.ok ()⟩
      "d" "msg" rfl (by decide) (by decide)).1 (Or.inr (Or.inr (by decide)))

/-- C6: with the dry-run option set the commit operation is never
invoked and stdin is never read, whatever the environment (in
particular, whatever stdin holds), and whenever the flow reaches a
generated message that message is printed. -/
theorem dry_run_no_commit (model : String) (env : CommitEnv) :
    (∀ m, Effect.gitCommit m ∉ (commitRun model true env).2) ∧
    Effect.readStdin ∉ (commitRun model true env).2 ∧
    (∀ d raw, env.diffRun = Except.ok d → d ≠ "" →
      (askAI env.provider (commitPromptTemplate (promptInput d)) model).1 = Except.ok raw →
      Effect.printOut ("\nSuggested commit message:\n" ++ goTrimSpace raw ++ "\n") ∈
        (commitRun model true env).2) := by
  refine ⟨?_, ?_, ?_⟩
  · intro m
    rcases commitRun_trace_cases model true env with
      h | ⟨d, hd, hne, ⟨e, hai, h⟩ | ⟨raw, hai, h⟩⟩ <;>
      rw [h] <;> simp [askAI_not_gitCommit, confirmStage_dry]
  · rcases commitRun_trace_cases model true env with
      h | ⟨d, hd, hne, ⟨e, hai, h⟩ | ⟨raw, hai, h⟩⟩ <;>
      rw [h] <;> simp [askAI_not_readStdin, confirmStage_dry]
  · intro d raw hd hne hai
    rw [commitRun_confirm model true env d raw hd hne hai, confirmStage_dry]
    simp

theorem dry_run_no_commit_witness :
    Effect.printOut ("\nSuggested commit message:\n" ++ goTrimSpace "msg" ++ "\n") ∈
      (commitRun "" true
        ⟨⟨true, false, Except.ok "msg", Except.ok ""⟩, Except.ok "d", "n\n", false,
          Except.ok ()⟩).2 :=
  (dry_run_no_commit ""
      ⟨⟨true, false, Except.ok "msg", Except.ok ""⟩, Except.ok "d", "n\n", false,
        Except.ok ()⟩).2.2 "d" "msg" rfl (by decide) (by decide)

/-- C9: declining the generated message (any response other than empty,
y, yes after trimming and folding) ends the command with a nil result —
a zero exit status under the command framework — and no commit
invocation appears in the trace. -/
theorem cancel_zero_exit (model : String) (env : CommitEnv) (d raw : String)
    (hd : env.diffRun = Except.ok d) (hne : d ≠ "")
    (hai : (askAI env.provider (commitPromptTemplate (promptInput d)) model).1 = Except.ok raw)
    (hresp : goTrimSpace (goToLower env.stdinLine) ≠ "" ∧
      goTrimSpace (goToLower env.stdinLine) ≠ "y" ∧
      goTrimSpace (goToLower env.stdinLine) ≠ "yes") :
    (commitRun model false env).1 = Except.ok () ∧
    ∀ m, Effect.gitCommit m ∉ (commitRun model false env).2 := by
  rw [commitRun_confirm model false env d raw hd hne hai,
      confirmStage_cancel env.stdinLine env.commitRes (goTrimSpace raw) hresp]
  refine ⟨rfl, ?_⟩
  intro m
  simp [askAI_not_gitCommit]

theorem cancel_zero_exit_witness :
    (commitRun "" false
        ⟨⟨true, false, Except.ok "msg", Except.ok ""⟩, Except.ok "d", "n\n", false,
          Except.ok ()⟩).1 = Except.ok () :=
  (cancel_zero_exit ""
      ⟨⟨true, false, Except.ok "msg", Except.ok ""⟩, Except.ok "d", "n\n", false, Except.ok ()⟩
      "d" "msg" rfl (by decide) (by decide) (by decide)).1

/-- C10: the error of the stdin read is discarded — the run is invariant
in the read-error flag and uses whatever partial line was read — and an
immediate end-of-file yields the empty response, which is accepted and
leads to a commit invocation. -/
theorem stdin_error_ignored (model : String) (dryRun : Bool) (p : ProviderEnv)
    (dr : Except String String) (line : String) (b b' : Bool) (cr : Except String Unit) :
    commitRun model dryRun ⟨p, dr, line, b, cr⟩ = commitRun model dryRun ⟨p, dr, line, b', cr⟩ ∧
    (∀ d raw, dr = Except.ok d → d ≠ "" →
      (askAI p (commitPromptTemplate (promptInput d)) model).1 = Except.ok raw →
      dryRun = false → line = "" →
      Effect.gitCommit (goTrimSpace raw) ∈ (commitRun model dryRun ⟨p, dr, line, b, cr⟩).2) := by
  constructor
  · rfl
  · intro d raw hd hne hai hdry hline
    subst hdry; subst hline
    rw [commitRun_confirm model false ⟨p, dr, "", b, cr⟩ d raw hd hne hai,
        confirmStage_accept_trace "" cr (goTrimSpace raw) (Or.inl (by decide))]
    simp

theorem stdin_error_ignored_witness :
    commitRun "" false
        ⟨⟨true, false, Except.ok "msg", Except.ok ""⟩, Except.ok "d", "", true, Except.ok ()⟩ =
      commitRun "" false
        ⟨⟨true, false, Except.ok "msg", Except.ok ""⟩, Except.ok "d", "", false, Except.ok ()⟩ ∧
    Effect.gitCommit (goTrimSpace "msg") ∈
      (commitRun "" false
        ⟨⟨true, false, Except.ok "msg", Except.ok ""⟩, Except.ok "d", "", true,
          Except.ok ()⟩).2 :=
  ⟨(stdin_error_ignored "" false ⟨true, false, Except.ok "msg", Except.ok ""⟩ (Except.ok "d")
      "" true false (Except.ok ())).1,
   (stdin_error_ignored "" false ⟨true, false, Except.ok "msg", Except.ok ""⟩ (Except.ok "d")
      "" true false (Except.ok ())).2 "d" "msg" rfl (by decide) (by decide) rfl rfl⟩

/-- C7: the ask command derives its question from the positional
arguments joined by single spaces when any are given, and otherwise from
all stdin lines joined by newlines; the derived question is handed to
the chosen provider verbatim, as the final positional argument of the
spawned subprocess. -/
theorem ask_question_derivation (model : String) (args : List String) (env : AskEnv) :
    (args ≠ [] → deriveQuestion args env.stdinLines = String.intercalate " " args) ∧
    (args = [] → deriveQuestion args env.stdinLines = String.intercalate "\n" env.stdinLines) ∧
    (env.resolveOk = true → goTrimSpace (deriveQuestion args env.stdinLines) ≠ "" →
      env.provider.claudeOnPath = true →
      Effect.spawn "claude" (claudeArgs (deriveQuestion args env.stdinLines) model) ∈
        (askRun model args env).2) := by
  refine ⟨?_, ?_, ?_⟩
  · intro h
    rw [deriveQuestion, if_pos (List.length_pos.mpr h)]
  · intro h; subst h; rfl
  · intro hres hq hcl
    have hmem := askAI_claude_mem env.provider (deriveQuestion args env.stdinLines) model hcl
    cases hjson : env.outputJSON <;>
      cases hai : (askAI env.provider (deriveQuestion args env.stdinLines) model).1 <;>
        simp [askRun, hres, hq, hai, hjson, hmem]

theorem ask_question_derivation_witness :
    deriveQuestion ["How", "do", "I", "refactor?"] [] =
      String.intercalate " " ["How", "do", "I", "refactor?"] :=
  (ask_question_derivation "" ["How", "do", "I", "refactor?"]
      ⟨⟨false, false, Except.ok "", Except.ok ""⟩, true, [], false⟩).1 (by decide)

/-- C8: whenever the derived question is empty or whitespace-only the
ask command fails with an error, and its trace holds no spawned provider
subprocess. -/
theorem ask_empty_question (model : String) (args : List String) (env : AskEnv)
    (h : goTrimSpace (deriveQuestion args env.stdinLines) = "") :
    (∃ e, (askRun model args env).1 = Except.error e) ∧
    ∀ q a, Effect.spawn q a ∉ (askRun model args env).2 := by
  cases hres : env.resolveOk
  · constructor
    · exact ⟨"output resolve failed", by simp [askRun, hres]⟩
    · intro q a; simp [askRun, hres]
  · constructor
    · exact ⟨"no question provided", by simp [askRun, hres, h]⟩
    · intro q a
      by_cases hlen : args.length > 0 <;> simp [askRun, hres, h, hlen]

theorem ask_empty_question_witness :
    (∃ e, (askRun "" []
        ⟨⟨true, true, Except.ok "", Except.ok ""⟩, true, ["  ", ""], false⟩).1 =
          Except.error e) ∧
    ∀ q a, Effect.spawn q a ∉ (askRun "" []
        ⟨⟨true, true, Except.ok "", Except.ok ""⟩, true, ["  ", ""], false⟩).2 :=
  ask_empty_question "" [] ⟨⟨true, true, Except.ok "", Except.ok ""⟩, true, ["  ", ""], false⟩
    (by decide)

end ArcAI
